import Mathlib

/-
Verification of the smart-bus-monitor repository against its specification.
The repository ships the React dashboard; the FastAPI/MQTT backend pipeline
(Telemetry Ingress, Store Writer, Alert Engine, Notification Dispatcher,
Relay Forwarder, Control/Config Surface) is described by the specification
and the README but its implementation is not among the supplied sources.
Definitions for those components are therefore modelled from the spec, as
marked on each one; dashboard-side definitions are translated from the
JavaScript sources under src/frontend.
Machine integers and floats are modelled as Int: every comparison the
claims mention is order-theoretic and no claim depends on fractional or
overflow behaviour.
-/

/-- Modelled from the spec: §3 TelemetrySample — the validated telemetry
record {vehicle id, event timestamp, lat, lon, speed, occupancy, door-open
flag, engine-on flag} (backend not under src/). -/
structure TelemetrySample where
  busId : String
  timestamp : Int
  lat : Int
  lon : Int
  speed : Int
  occupancy : Int
  door_open : Bool
  engine_on : Bool
deriving DecidableEq

/-- Modelled from the spec: §3 Configuration — the process-wide singleton
{overspeed threshold, polling interval hint, relay-forwarding flag,
automatic-notification flag} (backend not under src/; field names from the
dashboard's ConfigContext defaults). -/
structure Configuration where
  overspeed_threshold : Int
  poll_interval_seconds : Int
  thingspeak_enabled : Bool
  auto_sms_enabled : Bool
deriving DecidableEq

/-- Modelled from the spec: §3 Alert — kind is one of a closed set. -/
inductive AlertKind where
  | overspeed
  | door_open_while_moving
deriving DecidableEq

/-- Modelled from the spec: §3 Alert — {vehicle, kind, measured value,
configured threshold at evaluation time} (the free-text summary carries no
information the claims mention and is omitted). -/
structure Alert where
  busId : String
  kind : AlertKind
  value : Int
  threshold : Int
deriving DecidableEq

/-- Modelled from the spec: §4.3 per-vehicle violating-state flags
{overspeeding, doorOpenWhileMoving}, initialized false. -/
structure VehicleFlags where
  overspeeding : Bool
  doorOpenWhileMoving : Bool
deriving DecidableEq

/-- Modelled from the spec: §4.3 engine state — a mapping from vehicle id
to that vehicle's flags. -/
def EngineState : Type := String → VehicleFlags

/-- Modelled from the spec: §4.3 — flags initialized false (NORMAL). -/
def initState : EngineState := fun _ => ⟨false, false⟩

/-- Modelled from the spec: §4.3 overspeed violation predicate
`speed > overspeed_threshold` (also DocumentationPage systemFlow step 3). -/
def overspeedViol (cfg : Configuration) (s : TelemetrySample) : Bool :=
  decide (cfg.overspeed_threshold < s.speed)

/-- Modelled from the spec: §4.3 door-open-while-moving violation predicate
`door_open == true AND speed > 5`, the floor 5 fixed, not configurable
(also DocumentationPage systemFlow step 3). -/
def doorViol (s : TelemetrySample) : Bool :=
  s.door_open && decide (5 < s.speed)

/-- Modelled from the spec: §4.3 — the Alert synthesized on an overspeed
transition: value = speed, threshold = configured threshold. -/
def mkOverspeedAlert (cfg : Configuration) (s : TelemetrySample) : Alert :=
  ⟨s.busId, AlertKind.overspeed, s.speed, cfg.overspeed_threshold⟩

/-- Modelled from the spec: §4.3 — the Alert synthesized on a
door-open-while-moving transition: value = speed, threshold = the fixed
floor 5. -/
def mkDoorAlert (s : TelemetrySample) : Alert :=
  ⟨s.busId, AlertKind.door_open_while_moving, s.speed, 5⟩

/-- Modelled from the spec: §4.3 edge-triggered evaluation of one validated
sample — each kind fires exactly on a NORMAL→VIOLATING transition of its
flag, and both flags are then set to the sample's violation status. -/
def evalSample (cfg : Configuration) (st : EngineState) (s : TelemetrySample) :
    EngineState × List Alert :=
  ((fun w => if w = s.busId then ⟨overspeedViol cfg s, doorViol s⟩ else st w),
    (if overspeedViol cfg s && !(st s.busId).overspeeding
      then [mkOverspeedAlert cfg s] else []) ++
    (if doorViol s && !(st s.busId).doorOpenWhileMoving
      then [mkDoorAlert s] else []))

/-- Modelled from the spec: §4.3 — evaluating a stream of validated samples
in order, collecting the emitted Alerts. -/
def runEngine (cfg : Configuration) (st : EngineState) :
    List TelemetrySample → EngineState × List Alert
  | [] => (st, [])
  | s :: rest =>
    ((runEngine cfg (evalSample cfg st s).1 rest).1,
      (evalSample cfg st s).2 ++ (runEngine cfg (evalSample cfg st s).1 rest).2)

def isOverspeedAlert (a : Alert) : Bool := decide (a.kind = AlertKind.overspeed)

def isDoorAlert (a : Alert) : Bool := decide (a.kind = AlertKind.door_open_while_moving)

def overspeedOnly (l : List Alert) : List Alert := l.filter isOverspeedAlert

def doorOnly (l : List Alert) : List Alert := l.filter isDoorAlert

/-- The spec's edge-triggered rule for overspeed, stated directly on the
sample sequence: one Alert per transition of the violation predicate from
false (previous sample, initially NORMAL) to true, nothing otherwise. -/
def edgeOverspeedAlerts (cfg : Configuration) : Bool → List TelemetrySample → List Alert
  | _, [] => []
  | prev, s :: rest =>
    (if overspeedViol cfg s && !prev then [mkOverspeedAlert cfg s] else []) ++
    edgeOverspeedAlerts cfg (overspeedViol cfg s) rest

/-- The spec's edge-triggered rule for door-open-while-moving, stated
directly on the sample sequence; it takes no Configuration argument — the
floor 5 is fixed. -/
def edgeDoorAlerts : Bool → List TelemetrySample → List Alert
  | _, [] => []
  | prev, s :: rest =>
    (if doorViol s && !prev then [mkDoorAlert s] else []) ++
    edgeDoorAlerts (doorViol s) rest

def bus9id : String := "bus-9"

def bus2id : String := "bus-2"

/-- The configuration used by the spec's scenarios: threshold 70 (the
README/ConfigContext default). -/
def cfgDefault : Configuration := ⟨70, 5, false, false⟩

def mkSample (v : String) (t sp : Int) (door : Bool) : TelemetrySample :=
  ⟨v, t, 0, 0, sp, 0, door, true⟩

/-- The spec's C1 scenario: speeds {60, 75, 72, 65} for vehicle bus-9. -/
def samplesBus9 : List TelemetrySample :=
  [mkSample bus9id 1 60 false, mkSample bus9id 2 75 false,
    mkSample bus9id 3 72 false, mkSample bus9id 4 65 false]

/-- The spec's C2 scenario: door_open=true at speed 10, door_open=true at
speed 20, door_open=false at speed 20, for vehicle bus-2. -/
def samplesBus2 : List TelemetrySample :=
  [mkSample bus2id 1 10 true, mkSample bus2id 2 20 true,
    mkSample bus2id 3 20 false]

/-- Modelled from the spec: §3 Message lifecycle status — pending → sent →
delivered → read, or → failed (statuses also listed in the dashboard's
MessageStatusBadge and MessagesPage filter). -/
inductive MsgStatus where
  | pending
  | sent
  | delivered
  | read
  | failed
deriving DecidableEq

/-- Position of a status along the forward chain pending → sent →
delivered → read; failed sits outside the chain and is handled
separately. -/
def statusRank : MsgStatus → Nat
  | MsgStatus.pending => 0
  | MsgStatus.sent => 1
  | MsgStatus.delivered => 2
  | MsgStatus.read => 3
  | MsgStatus.failed => 4

/-- Modelled from the spec: §4.4 — the operations of the simulated delivery
path: advance pending→sent, sent→delivered, delivered→read, or fail. -/
inductive DeliveryOp where
  | markSent
  | markDelivered
  | markRead
  | markFail
deriving DecidableEq

/-- Modelled from the spec: §4.4 — one delivery-path operation applied to a
Message's status: failed and read are terminal; each advance applies only
from its predecessor status; markFail sends any non-terminal status to
failed. -/
def deliveryStep : DeliveryOp → MsgStatus → MsgStatus
  | _, MsgStatus.failed => MsgStatus.failed
  | _, MsgStatus.read => MsgStatus.read
  | DeliveryOp.markFail, _ => MsgStatus.failed
  | DeliveryOp.markSent, MsgStatus.pending => MsgStatus.sent
  | DeliveryOp.markSent, s => s
  | DeliveryOp.markDelivered, MsgStatus.sent => MsgStatus.delivered
  | DeliveryOp.markDelivered, s => s
  | DeliveryOp.markRead, MsgStatus.delivered => MsgStatus.read
  | DeliveryOp.markRead, s => s

/-- Modelled from the spec: §4.4 — a sequence of delivery-path operations
applied in order to a Message's status. -/
def runDelivery (s : MsgStatus) (ops : List DeliveryOp) : MsgStatus :=
  ops.foldl (fun st op => deliveryStep op st) s

/-- Modelled from the spec: §7 ConfigInvalid — the error raised for an
out-of-range configuration update. -/
inductive ConfigError where
  | configInvalid
deriving DecidableEq

/-- Modelled from the spec: §7/§8 — validity bounds of a configuration
update; the bounds 40–120 km/h and 3–30 s are the ones the SettingsPage
form declares (min/max attributes) and the spec references (floor 40). -/
def validConfiguration (c : Configuration) : Bool :=
  decide (40 ≤ c.overspeed_threshold) && decide (c.overspeed_threshold ≤ 120) &&
    decide (3 ≤ c.poll_interval_seconds) && decide (c.poll_interval_seconds ≤ 30)

/-- Modelled from the spec: §4.2/§7 setConfig — replace the singleton
configuration atomically; an out-of-range update is rejected with
ConfigInvalid before the singleton is replaced, and the old value is
retained. Returns the configuration now in effect plus the error, if
any. -/
def setConfig (cur patch : Configuration) : Configuration × Option ConfigError :=
  if validConfiguration patch then (patch, none)
  else (cur, some ConfigError.configInvalid)

/-- The spec's C4 scenario update: overspeed_threshold = 30, below the
floor 40. -/
def cfgPatch30 : Configuration := ⟨30, 5, false, false⟩

/-- Modelled from the spec: §4.5 — the reduced payload the Relay Forwarder
publishes: vehicle id, timestamp, speed. -/
structure RelayPayload where
  busId : String
  timestamp : Int
  speed : Int
deriving DecidableEq

def relayPayload (s : TelemetrySample) : RelayPayload :=
  ⟨s.busId, s.timestamp, s.speed⟩

/-- Modelled from the spec: §4.1/§4.5 — the outcome of processing one
validated telemetry sample: the updated store, the updated engine state and
emitted alerts, what (if anything) was forwarded to the relay, and whether
a relay failure was logged. There is no failure channel: relay problems are
logged and discarded, never raised to the ingestion path. -/
structure IngestOutcome where
  newVehicles : List String
  newSamples : List TelemetrySample
  engine : EngineState
  alerts : List Alert
  relayed : Option RelayPayload
  relayFailureLogged : Bool

/-- Modelled from the spec: §4.1/§4.5 — process one validated sample:
persist it, evaluate alerts, and forward the reduced payload to the relay
when `relay_enabled` (thingspeak_enabled) is true and credentials are
present; `relayOk` is whether the external endpoint accepted the publish —
a failed publish is only logged. -/
def processSample (cfg : Configuration) (creds relayOk : Bool)
    (vehicles : List String) (samples : List TelemetrySample)
    (eng : EngineState) (s : TelemetrySample) : IngestOutcome :=
  { newVehicles := if s.busId ∈ vehicles then vehicles else vehicles ++ [s.busId]
    newSamples := samples ++ [s]
    engine := (evalSample cfg eng s).1
    alerts := (evalSample cfg eng s).2
    relayed := if cfg.thingspeak_enabled && creds then some (relayPayload s) else none
    relayFailureLogged := (cfg.thingspeak_enabled && creds) && !relayOk }

def bus1id : String := "bus-1"

/-- Modelled from the spec: §4.2 Store Writer state — the vehicle registry
and the telemetry rows in arrival order. -/
structure Store where
  vehicles : List String
  samples : List TelemetrySample

def emptyStore : Store := ⟨[], []⟩

/-- Modelled from the spec: §4.1/§4.2 — `recordTelemetry(sample)` appends
the sample (never rejects, duplicates tolerated) and upserts the vehicle
registry on first sight of an id. -/
def recordTelemetry (st : Store) (s : TelemetrySample) : Store :=
  ⟨if s.busId ∈ st.vehicles then st.vehicles else st.vehicles ++ [s.busId],
    st.samples ++ [s]⟩

/-- Of two samples, the one with the greater event timestamp; on a tie the
first-seen one is kept. -/
def laterOf (cur s : TelemetrySample) : TelemetrySample :=
  if cur.timestamp < s.timestamp then s else cur

/-- Modelled from the spec: §3/§4.2 — scan of the telemetry rows in arrival
order keeping, per the queried vehicle, the sample with the greatest event
timestamp seen so far. -/
def latestFrom (v : String) : Option TelemetrySample → List TelemetrySample →
    Option TelemetrySample
  | acc, [] => acc
  | none, s :: rest =>
    if s.busId = v then latestFrom v (some s) rest else latestFrom v none rest
  | some cur, s :: rest =>
    if s.busId = v then latestFrom v (some (laterOf cur s)) rest
    else latestFrom v (some cur) rest

def latestFor (v : String) (samples : List TelemetrySample) :
    Option TelemetrySample :=
  latestFrom v none samples

/-- Modelled from the spec: §4.2 — `latestSnapshot()`: one row per known
vehicle, each the sample with the maximum event timestamp recorded for that
vehicle. -/
def latestSnapshot (st : Store) : List (String × TelemetrySample) :=
  st.vehicles.filterMap fun v => (latestFor v st.samples).map fun m => (v, m)

/-- The store produced by a sequence of recordTelemetry calls starting from
the empty store. -/
def applyAll (ss : List TelemetrySample) : Store :=
  ss.foldl recordTelemetry emptyStore

/-- The spec's out-of-order arrival shape: the second recorded sample
carries an earlier event timestamp than the first. -/
def ssOutOfOrder : List TelemetrySample :=
  [mkSample bus1id 10 50 false, mkSample bus1id 5 60 false]

/-- Modelled from the spec: §7 NotFoundError — a history query against an
unknown vehicle id. -/
inductive StoreError where
  | notFound
deriving DecidableEq

/-- Ordering of samples by event timestamp. -/
def tsLE (a b : TelemetrySample) : Prop := a.timestamp ≤ b.timestamp

instance : DecidableRel tsLE :=
  fun a b => inferInstanceAs (Decidable (a.timestamp ≤ b.timestamp))

instance : IsTotal TelemetrySample tsLE :=
  ⟨fun a b => Int.le_total a.timestamp b.timestamp⟩

instance : IsTrans TelemetrySample tsLE :=
  ⟨fun _ _ _ h1 h2 => le_trans h1 h2⟩

/-- The history query's row predicate: the sample belongs to the queried
vehicle and its timestamp lies in the closed interval. -/
def inRange (v : String) (t0 t1 : Int) (s : TelemetrySample) : Bool :=
  decide (s.busId = v) && decide (t0 ≤ s.timestamp) && decide (s.timestamp ≤ t1)

/-- Modelled from the spec: §4.2 — `history(vehicleId, fromTime, toTime)`:
all samples for the vehicle with timestamp in the closed interval, ordered
by timestamp ascending; NotFound if the vehicle id is unknown. -/
def history (st : Store) (v : String) (t0 t1 : Int) :
    Except StoreError (List TelemetrySample) :=
  if v ∈ st.vehicles then
    Except.ok (List.insertionSort tsLE (st.samples.filter (inRange v t0 t1)))
  else Except.error StoreError.notFound

/-- The dashboard's configured polling seconds, as LiveStatusPage reads
them: `config.poll_interval_seconds || 5` — a missing (none) or zero value
falls back to 5 (JavaScript falsiness of undefined/null/0 for the number
field). From src/frontend/src/pages/LiveStatusPage.js line 39. -/
def pollBaseSeconds : Option Int → Int
  | none => 5
  | some p => if p = 0 then 5 else p

/-- LiveStatusPage's polling interval in milliseconds:
`Math.max(config.poll_interval_seconds || 5, 3) * 1000`.
From src/frontend/src/pages/LiveStatusPage.js line 39. -/
def liveStatusIntervalMs (p : Option Int) : Int :=
  max (pollBaseSeconds p) 3 * 1000

/-- A JavaScript value as it appears in the sendDriverMessage payload
fields: null, undefined, a number, a string, or a boolean. -/
inductive JsValue where
  | null
  | undef
  | num (n : Int)
  | str (s : String)
  | bool (b : Bool)
deriving DecidableEq

/-- JavaScript truthiness on those values: undefined, null, 0 and the empty
string are falsy. -/
def truthy : JsValue → Bool
  | JsValue.null => false
  | JsValue.undef => false
  | JsValue.num n => decide (n ≠ 0)
  | JsValue.str s => decide (s ≠ "")
  | JsValue.bool b => b

/-- The JavaScript idiom `x || null`: a falsy value becomes null. -/
def orNull (v : JsValue) : JsValue :=
  if truthy v then v else JsValue.null

/-- The body sendDriverMessage posts to /api/messages/send. -/
structure SendMessagePayload where
  bus_id : JsValue
  alert_id : JsValue
  template_type : JsValue
  custom_note : JsValue
  speed : JsValue
  threshold : JsValue
deriving DecidableEq

/-- The payload construction of sendDriverMessage: bus_id and template_type
pass through, while alert_id, custom_note, speed and threshold are each
`arg || null`. From src/frontend/src/api/client.js lines 130–141. -/
def sendDriverMessage (busId alertId templateType customNote speed threshold : JsValue) :
    SendMessagePayload :=
  { bus_id := busId
    alert_id := orNull alertId
    template_type := templateType
    custom_note := orNull customNote
    speed := orNull speed
    threshold := orNull threshold }

lemma overspeedOnly_append (l1 l2 : List Alert) :
    overspeedOnly (l1 ++ l2) = overspeedOnly l1 ++ overspeedOnly l2 :=
  List.filter_append l1 l2

lemma doorOnly_append (l1 l2 : List Alert) :
    doorOnly (l1 ++ l2) = doorOnly l1 ++ doorOnly l2 :=
  List.filter_append l1 l2

lemma overspeedOnly_if_overspeed (c : Bool) (cfg : Configuration) (s : TelemetrySample) :
    overspeedOnly (if c then [mkOverspeedAlert cfg s] else []) =
      (if c then [mkOverspeedAlert cfg s] else []) := by
  cases c <;> simp [overspeedOnly, isOverspeedAlert, mkOverspeedAlert]

lemma overspeedOnly_if_door (c : Bool) (s : TelemetrySample) :
    overspeedOnly (if c then [mkDoorAlert s] else []) = [] := by
  cases c <;> simp [overspeedOnly, isOverspeedAlert, mkDoorAlert]

lemma doorOnly_if_door (c : Bool) (s : TelemetrySample) :
    doorOnly (if c then [mkDoorAlert s] else []) =
      (if c then [mkDoorAlert s] else []) := by
  cases c <;> simp [doorOnly, isDoorAlert, mkDoorAlert]

lemma doorOnly_if_overspeed (c : Bool) (cfg : Configuration) (s : TelemetrySample) :
    doorOnly (if c then [mkOverspeedAlert cfg s] else []) = [] := by
  cases c <;> simp [doorOnly, isDoorAlert, mkOverspeedAlert]

lemma evalSample_state_at (cfg : Configuration) (st : EngineState)
    (s : TelemetrySample) (v : String) (hs : s.busId = v) :
    (evalSample cfg st s).1 v = ⟨overspeedViol cfg s, doorViol s⟩ := by
  simp [evalSample, hs]

lemma runEngine_overspeed_edge (cfg : Configuration) (v : String) :
    ∀ (samples : List TelemetrySample) (st : EngineState),
      (∀ s ∈ samples, s.busId = v) →
      overspeedOnly (runEngine cfg st samples).2 =
        edgeOverspeedAlerts cfg (st v).overspeeding samples := by
  intro samples
  induction samples with
  | nil =>
    intro st _
    simp [runEngine, overspeedOnly, edgeOverspeedAlerts]
  | cons s rest ih =>
    intro st h
    have hs : s.busId = v := h s (List.mem_cons_self s rest)
    have hrest : ∀ x ∈ rest, x.busId = v := fun x hx => h x (List.mem_cons_of_mem s hx)
    have hstate := evalSample_state_at cfg st s v hs
    have hone : (runEngine cfg st (s :: rest)).2 =
        (evalSample cfg st s).2 ++ (runEngine cfg (evalSample cfg st s).1 rest).2 := rfl
    rw [hone, overspeedOnly_append]
    have halerts : overspeedOnly (evalSample cfg st s).2 =
        (if overspeedViol cfg s && !(st v).overspeeding
          then [mkOverspeedAlert cfg s] else []) := by
      show overspeedOnly
        ((if overspeedViol cfg s && !(st s.busId).overspeeding
            then [mkOverspeedAlert cfg s] else []) ++
          (if doorViol s && !(st s.busId).doorOpenWhileMoving
            then [mkDoorAlert s] else [])) = _
      rw [overspeedOnly_append, overspeedOnly_if_overspeed, overspeedOnly_if_door, hs]
      simp
    rw [halerts, ih (evalSample cfg st s).1 hrest, hstate]
    rfl

lemma runEngine_door_edge (cfg : Configuration) (v : String) :
    ∀ (samples : List TelemetrySample) (st : EngineState),
      (∀ s ∈ samples, s.busId = v) →
      doorOnly (runEngine cfg st samples).2 =
        edgeDoorAlerts (st v).doorOpenWhileMoving samples := by
  intro samples
  induction samples with
  | nil =>
    intro st _
    simp [runEngine, doorOnly, edgeDoorAlerts]
  | cons s rest ih =>
    intro st h
    have hs : s.busId = v := h s (List.mem_cons_self s rest)
    have hrest : ∀ x ∈ rest, x.busId = v := fun x hx => h x (List.mem_cons_of_mem s hx)
    have hstate := evalSample_state_at cfg st s v hs
    have hone : (runEngine cfg st (s :: rest)).2 =
        (evalSample cfg st s).2 ++ (runEngine cfg (evalSample cfg st s).1 rest).2 := rfl
    rw [hone, doorOnly_append]
    have halerts : doorOnly (evalSample cfg st s).2 =
        (if doorViol s && !(st v).doorOpenWhileMoving
          then [mkDoorAlert s] else []) := by
      show doorOnly
        ((if overspeedViol cfg s && !(st s.busId).overspeeding
            then [mkOverspeedAlert cfg s] else []) ++
          (if doorViol s && !(st s.busId).doorOpenWhileMoving
            then [mkDoorAlert s] else [])) = _
      rw [doorOnly_append, doorOnly_if_overspeed, doorOnly_if_door, hs]
      simp
    rw [halerts, ih (evalSample cfg st s).1 hrest, hstate]
    rfl

/-- Claim C1: for every vehicle and sample sequence the Alert Engine emits
exactly one overspeed Alert per transition from non-violating to violating
and none while the vehicle stays violating (its overspeed output equals the
edge-triggered reference `edgeOverspeedAlerts`); and on the speed sequence
{60, 75, 72, 65} with threshold 70 exactly one overspeed Alert is produced,
on the second sample, with value 75 and threshold 70. -/
theorem alert_engine_overspeed_edge_triggered :
    (∀ (cfg : Configuration) (v : String) (st : EngineState)
        (samples : List TelemetrySample),
        (∀ s ∈ samples, s.busId = v) →
        overspeedOnly (runEngine cfg st samples).2 =
          edgeOverspeedAlerts cfg (st v).overspeeding samples) ∧
    (runEngine cfgDefault initState samplesBus9).2 =
      [⟨bus9id, AlertKind.overspeed, 75, 70⟩] := by
  constructor
  · intro cfg v st samples h
    exact runEngine_overspeed_edge cfg v samples st h
  · decide

theorem alert_engine_overspeed_edge_triggered_witness :
    overspeedOnly (runEngine cfgDefault initState samplesBus9).2 =
      edgeOverspeedAlerts cfgDefault (initState bus9id).overspeeding samplesBus9 :=
  alert_engine_overspeed_edge_triggered.1 cfgDefault bus9id initState samplesBus9
    (by decide)

/-- Claim C2: the door-open-while-moving violation holds exactly when
door_open is true and speed > 5; the floor 5 is fixed — the edge-triggered
reference `edgeDoorAlerts` that the engine's door output equals takes no
Configuration argument at all; and the scenario door_open=true at speed 10,
door_open=true at speed 20, door_open=false at speed 20 produces exactly
one door-open-while-moving Alert, on the first sample. -/
theorem door_open_while_moving_fixed_floor :
    (∀ s : TelemetrySample, doorViol s = true ↔ (s.door_open = true ∧ 5 < s.speed)) ∧
    (∀ (cfg : Configuration) (v : String) (st : EngineState)
        (samples : List TelemetrySample),
        (∀ s ∈ samples, s.busId = v) →
        doorOnly (runEngine cfg st samples).2 =
          edgeDoorAlerts (st v).doorOpenWhileMoving samples) ∧
    (runEngine cfgDefault initState samplesBus2).2 =
      [⟨bus2id, AlertKind.door_open_while_moving, 10, 5⟩] := by
  refine ⟨?_, ?_, by decide⟩
  · intro s
    simp [doorViol]
  · intro cfg v st samples h
    exact runEngine_door_edge cfg v samples st h

theorem door_open_while_moving_fixed_floor_witness :
    (doorViol (mkSample bus2id 1 10 true) = true ↔
      ((mkSample bus2id 1 10 true).door_open = true ∧
        5 < (mkSample bus2id 1 10 true).speed)) ∧
    doorOnly (runEngine cfgDefault initState samplesBus2).2 =
      edgeDoorAlerts (initState bus2id).doorOpenWhileMoving samplesBus2 :=
  ⟨door_open_while_moving_fixed_floor.1 (mkSample bus2id 1 10 true),
    door_open_while_moving_fixed_floor.2.1 cfgDefault bus2id initState samplesBus2
      (by decide)⟩

/-- Claim C8: the overspeed predicate is the strict comparison
`speed > overspeed_threshold`; a sample whose speed equals the threshold is
not violating and produces no overspeed Alert; and every Alert the engine
emits for a sample records value = the sample's speed and, for overspeed,
threshold = the configured threshold in effect at evaluation time. -/
theorem overspeed_strict_comparison :
    (∀ (cfg : Configuration) (s : TelemetrySample),
        overspeedViol cfg s = true ↔ cfg.overspeed_threshold < s.speed) ∧
    (∀ (cfg : Configuration) (s : TelemetrySample),
        s.speed = cfg.overspeed_threshold → overspeedViol cfg s = false) ∧
    (∀ (cfg : Configuration) (st : EngineState) (s : TelemetrySample),
        s.speed = cfg.overspeed_threshold →
        overspeedOnly (evalSample cfg st s).2 = []) ∧
    (∀ (cfg : Configuration) (st : EngineState) (s : TelemetrySample) (a : Alert),
        a ∈ (evalSample cfg st s).2 →
        a.value = s.speed ∧
        (a.kind = AlertKind.overspeed → a.threshold = cfg.overspeed_threshold)) := by
  refine ⟨?_, ?_, ?_, ?_⟩
  · intro cfg s
    simp [overspeedViol]
  · intro cfg s h
    simp [overspeedViol, h]
  · intro cfg st s h
    have hviol : overspeedViol cfg s = false := by simp [overspeedViol, h]
    show overspeedOnly
      ((if overspeedViol cfg s && !(st s.busId).overspeeding
          then [mkOverspeedAlert cfg s] else []) ++
        (if doorViol s && !(st s.busId).doorOpenWhileMoving
          then [mkDoorAlert s] else [])) = []
    rw [overspeedOnly_append, overspeedOnly_if_overspeed, overspeedOnly_if_door, hviol]
    simp
  · intro cfg st s a ha
    have hmem : a ∈
        (if overspeedViol cfg s && !(st s.busId).overspeeding
          then [mkOverspeedAlert cfg s] else []) ++
        (if doorViol s && !(st s.busId).doorOpenWhileMoving
          then [mkDoorAlert s] else []) := ha
    rw [List.mem_append] at hmem
    rcases hmem with hmem | hmem
    · have : a = mkOverspeedAlert cfg s := by
        by_cases hc : (overspeedViol cfg s && !(st s.busId).overspeeding) = true
        · rw [if_pos hc] at hmem
          simpa using hmem
        · rw [if_neg hc] at hmem
          simp at hmem
      subst this
      exact ⟨rfl, fun _ => rfl⟩
    · have : a = mkDoorAlert s := by
        by_cases hc : (doorViol s && !(st s.busId).doorOpenWhileMoving) = true
        · rw [if_pos hc] at hmem
          simpa using hmem
        · rw [if_neg hc] at hmem
          simp at hmem
      subst this
      refine ⟨rfl, fun hk => ?_⟩
      simp [mkDoorAlert, AlertKind.door_open_while_moving] at hk

theorem overspeed_strict_comparison_witness :
    (overspeedViol cfgDefault (mkSample bus9id 1 75 false) = true ↔
      cfgDefault.overspeed_threshold < (mkSample bus9id 1 75 false).speed) ∧
    overspeedOnly (evalSample cfgDefault initState (mkSample bus9id 1 70 false)).2 = [] :=
  ⟨overspeed_strict_comparison.1 cfgDefault (mkSample bus9id 1 75 false),
    overspeed_strict_comparison.2.2.1 cfgDefault initState
      (mkSample bus9id 1 70 false) (by decide)⟩

lemma deliveryStep_failed (op : DeliveryOp) :
    deliveryStep op MsgStatus.failed = MsgStatus.failed := by
  cases op <;> rfl

lemma deliveryStep_read (op : DeliveryOp) :
    deliveryStep op MsgStatus.read = MsgStatus.read := by
  cases op <;> rfl

lemma deliveryStep_forward (op : DeliveryOp) (s : MsgStatus) :
    deliveryStep op s = MsgStatus.failed ∨
      statusRank s ≤ statusRank (deliveryStep op s) := by
  cases op <;> cases s <;> simp [deliveryStep, statusRank]

lemma runDelivery_failed : ∀ ops : List DeliveryOp,
    runDelivery MsgStatus.failed ops = MsgStatus.failed := by
  intro ops
  induction ops with
  | nil => rfl
  | cons op rest ih =>
    show runDelivery (deliveryStep op MsgStatus.failed) rest = MsgStatus.failed
    rw [deliveryStep_failed]
    exact ih

lemma runDelivery_read : ∀ ops : List DeliveryOp,
    runDelivery MsgStatus.read ops = MsgStatus.read := by
  intro ops
  induction ops with
  | nil => rfl
  | cons op rest ih =>
    show runDelivery (deliveryStep op MsgStatus.read) rest = MsgStatus.read
    rw [deliveryStep_read]
    exact ih

lemma runDelivery_forward : ∀ (ops : List DeliveryOp) (s : MsgStatus),
    runDelivery s ops = MsgStatus.failed ∨
      statusRank s ≤ statusRank (runDelivery s ops) := by
  intro ops
  induction ops with
  | nil => intro s; right; exact Nat.le_refl _
  | cons op rest ih =>
    intro s
    have hstep := deliveryStep_forward op s
    have htail := ih (deliveryStep op s)
    have hrun : runDelivery s (op :: rest) = runDelivery (deliveryStep op s) rest := rfl
    rw [hrun]
    rcases hstep with hstep | hstep
    · left
      rw [hstep]
      exact runDelivery_failed rest
    · rcases htail with htail | htail
      · left; exact htail
      · right; exact Nat.le_trans hstep htail

/-- Claim C6: for every Message status and every delivery-path operation,
the status only moves forward along pending → sent → delivered → read,
except that a non-terminal status may move to failed; failed and read are
terminal, under a single operation and under any sequence of operations. -/
theorem message_status_monotonic :
    (∀ op : DeliveryOp, deliveryStep op MsgStatus.failed = MsgStatus.failed) ∧
    (∀ op : DeliveryOp, deliveryStep op MsgStatus.read = MsgStatus.read) ∧
    (∀ (op : DeliveryOp) (s : MsgStatus),
        deliveryStep op s = MsgStatus.failed ∨
          statusRank s ≤ statusRank (deliveryStep op s)) ∧
    (∀ ops : List DeliveryOp, runDelivery MsgStatus.failed ops = MsgStatus.failed) ∧
    (∀ ops : List DeliveryOp, runDelivery MsgStatus.read ops = MsgStatus.read) ∧
    (∀ (ops : List DeliveryOp) (s : MsgStatus),
        runDelivery s ops = MsgStatus.failed ∨
          statusRank s ≤ statusRank (runDelivery s ops)) :=
  ⟨deliveryStep_failed, deliveryStep_read, deliveryStep_forward,
    runDelivery_failed, runDelivery_read, runDelivery_forward⟩

/-- Claim C4: an out-of-range configuration update (for example threshold
30, below the floor 40) is rejected with ConfigInvalid, the stored
configuration is unchanged, and subsequent Alert Engine evaluations use the
old configuration. -/
theorem config_update_rejected_atomically :
    (∀ patch : Configuration, patch.overspeed_threshold < 40 →
        validConfiguration patch = false) ∧
    (∀ cur patch : Configuration, validConfiguration patch = false →
        setConfig cur patch = (cur, some ConfigError.configInvalid) ∧
        ∀ (st : EngineState) (s : TelemetrySample),
          evalSample (setConfig cur patch).1 st s = evalSample cur st s) := by
  constructor
  · intro patch h
    have h40 : decide (40 ≤ patch.overspeed_threshold) = false := by
      simp only [decide_eq_false_iff_not, not_le]
      exact h
    simp [validConfiguration, h40]
  · intro cur patch h
    have hset : setConfig cur patch = (cur, some ConfigError.configInvalid) := by
      simp [setConfig, h]
    exact ⟨hset, fun st s => by rw [hset]⟩

theorem config_update_rejected_atomically_witness :
    validConfiguration cfgPatch30 = false ∧
    setConfig cfgDefault cfgPatch30 = (cfgDefault, some ConfigError.configInvalid) ∧
    evalSample (setConfig cfgDefault cfgPatch30).1 initState (mkSample bus9id 1 75 false) =
      evalSample cfgDefault initState (mkSample bus9id 1 75 false) := by
  have hinvalid : validConfiguration cfgPatch30 = false :=
    config_update_rejected_atomically.1 cfgPatch30 (by decide)
  have hrest := config_update_rejected_atomically.2 cfgDefault cfgPatch30 hinvalid
  exact ⟨hinvalid, hrest.1, hrest.2 initState (mkSample bus9id 1 75 false)⟩

/-- Claim C7: the Relay Forwarder publishes the reduced payload (vehicle
id, timestamp, speed) iff relay_enabled is true and credentials are
present; when disabled or credentials are absent it is a silent no-op (no
payload, no logged failure); and the persisted samples, vehicle registry,
engine state and emitted alerts are identical whatever the relay outcome —
a forwarding failure is never raised to the ingestion path and never drops
the sample's persistence or alert evaluation. -/
theorem relay_forwarder_best_effort :
    ∀ (cfg : Configuration) (creds relayOk : Bool) (vehicles : List String)
      (samples : List TelemetrySample) (eng : EngineState) (s : TelemetrySample),
      ((processSample cfg creds relayOk vehicles samples eng s).relayed =
          some (relayPayload s) ↔
        (cfg.thingspeak_enabled = true ∧ creds = true)) ∧
      (¬(cfg.thingspeak_enabled = true ∧ creds = true) →
        (processSample cfg creds relayOk vehicles samples eng s).relayed = none ∧
        (processSample cfg creds relayOk vehicles samples eng s).relayFailureLogged
          = false) ∧
      (∀ ok2 : Bool,
        (processSample cfg creds relayOk vehicles samples eng s).newSamples =
          (processSample cfg creds ok2 vehicles samples eng s).newSamples ∧
        (processSample cfg creds relayOk vehicles samples eng s).newVehicles =
          (processSample cfg creds ok2 vehicles samples eng s).newVehicles ∧
        (processSample cfg creds relayOk vehicles samples eng s).engine =
          (processSample cfg creds ok2 vehicles samples eng s).engine ∧
        (processSample cfg creds relayOk vehicles samples eng s).alerts =
          (processSample cfg creds ok2 vehicles samples eng s).alerts) := by
  intro cfg creds relayOk vehicles samples eng s
  refine ⟨?_, ?_, fun ok2 => ⟨rfl, rfl, rfl, rfl⟩⟩
  · constructor
    · intro h
      by_cases hc : (cfg.thingspeak_enabled && creds) = true
      · simpa using hc
      · rw [show (processSample cfg creds relayOk vehicles samples eng s).relayed =
            (if cfg.thingspeak_enabled && creds
              then some (relayPayload s) else none) from rfl, if_neg hc] at h
        exact absurd h (by simp)
    · intro h
      have hc : (cfg.thingspeak_enabled && creds) = true := by
        simp [h.1, h.2]
      show (if cfg.thingspeak_enabled && creds
        then some (relayPayload s) else none) = some (relayPayload s)
      rw [if_pos hc]
  · intro h
    have hc : (cfg.thingspeak_enabled && creds) = false := by
      cases he : cfg.thingspeak_enabled <;> cases hcr : creds <;> simp_all
    constructor
    · show (if cfg.thingspeak_enabled && creds
        then some (relayPayload s) else none) = none
      rw [hc]
      rfl
    · show ((cfg.thingspeak_enabled && creds) && !relayOk) = false
      rw [hc]
      rfl

theorem relay_forwarder_best_effort_witness :
    ((processSample cfgDefault false true [] [] initState
        (mkSample bus9id 1 75 false)).relayed =
      some (relayPayload (mkSample bus9id 1 75 false)) ↔
      (cfgDefault.thingspeak_enabled = true ∧ (false : Bool) = true)) ∧
    (processSample cfgDefault false true [] [] initState
        (mkSample bus9id 1 75 false)).relayed = none ∧
    (processSample cfgDefault false true [] [] initState
        (mkSample bus9id 1 75 false)).relayFailureLogged = false :=
  ⟨(relay_forwarder_best_effort cfgDefault false true [] [] initState
      (mkSample bus9id 1 75 false)).1,
    (relay_forwarder_best_effort cfgDefault false true [] [] initState
      (mkSample bus9id 1 75 false)).2.1 (by simp)⟩

lemma le_timestamp_laterOf_left (m s : TelemetrySample) :
    m.timestamp ≤ (laterOf m s).timestamp := by
  unfold laterOf
  split
  · exact le_of_lt (by assumption)
  · exact le_refl _

lemma le_timestamp_laterOf_right (m s : TelemetrySample) :
    s.timestamp ≤ (laterOf m s).timestamp := by
  unfold laterOf
  split
  · exact le_refl _
  · exact le_of_not_lt (by assumption)

lemma laterOf_cases (m s : TelemetrySample) : laterOf m s = m ∨ laterOf m s = s := by
  unfold laterOf
  split
  · exact Or.inr rfl
  · exact Or.inl rfl

lemma latestFrom_spec_some (v : String) :
    ∀ (l : List TelemetrySample) (m : TelemetrySample),
      ∃ m2, latestFrom v (some m) l = some m2 ∧
        (m2 = m ∨ (m2 ∈ l ∧ m2.busId = v)) ∧
        m.timestamp ≤ m2.timestamp ∧
        ∀ s ∈ l, s.busId = v → s.timestamp ≤ m2.timestamp := by
  intro l
  induction l with
  | nil =>
    intro m
    exact ⟨m, rfl, Or.inl rfl, le_refl _, by simp⟩
  | cons s rest ih =>
    intro m
    by_cases hb : s.busId = v
    · obtain ⟨m2, heq, hsrc, hle, hmax⟩ := ih (laterOf m s)
      refine ⟨m2, ?_, ?_, ?_, ?_⟩
      · show latestFrom v (some m) (s :: rest) = some m2
        simp [latestFrom, hb, heq]
      · rcases hsrc with h | h
        · rcases laterOf_cases m s with hl | hl
          · exact Or.inl (h.trans hl)
          · exact Or.inr ⟨by rw [h, hl]; exact List.mem_cons_self s rest, by rw [h, hl]; exact hb⟩
        · exact Or.inr ⟨List.mem_cons_of_mem s h.1, h.2⟩
      · exact le_trans (le_timestamp_laterOf_left m s) hle
      · intro x hx hxv
        rcases List.mem_cons.mp hx with rfl | hx
        · exact le_trans (le_timestamp_laterOf_right m x) hle
        · exact hmax x hx hxv
    · obtain ⟨m2, heq, hsrc, hle, hmax⟩ := ih m
      refine ⟨m2, ?_, ?_, hle, ?_⟩
      · show latestFrom v (some m) (s :: rest) = some m2
        simp [latestFrom, hb, heq]
      · rcases hsrc with h | h
        · exact Or.inl h
        · exact Or.inr ⟨List.mem_cons_of_mem s h.1, h.2⟩
      · intro x hx hxv
        rcases List.mem_cons.mp hx with rfl | hx
        · exact absurd hxv hb
        · exact hmax x hx hxv

lemma latestFor_some_of_mem (v : String) :
    ∀ l : List TelemetrySample, (∃ s ∈ l, s.busId = v) →
      ∃ m, latestFor v l = some m := by
  intro l
  induction l with
  | nil =>
    intro h
    simp at h
  | cons s rest ih =>
    intro h
    by_cases hb : s.busId = v
    · obtain ⟨m2, heq, -, -, -⟩ := latestFrom_spec_some v rest s
      exact ⟨m2, by simp [latestFor, latestFrom, hb, heq]⟩
    · obtain ⟨x, hx, hxv⟩ := h
      rcases List.mem_cons.mp hx with rfl | hx
      · exact absurd hxv hb
      · obtain ⟨m, hm⟩ := ih ⟨x, hx, hxv⟩
        exact ⟨m, by simpa [latestFor, latestFrom, hb] using hm⟩

lemma latestFor_spec_some (v : String) :
    ∀ (l : List TelemetrySample) (m : TelemetrySample), latestFor v l = some m →
      m ∈ l ∧ m.busId = v ∧
        ∀ s ∈ l, s.busId = v → s.timestamp ≤ m.timestamp := by
  intro l
  induction l with
  | nil =>
    intro m h
    exact absurd h (by simp [latestFor, latestFrom])
  | cons s rest ih =>
    intro m h
    by_cases hb : s.busId = v
    · have h2 : latestFrom v (some s) rest = some m := by
        simpa [latestFor, latestFrom, hb] using h
      obtain ⟨m2, heq, hsrc, hle, hmax⟩ := latestFrom_spec_some v rest s
      rw [heq] at h2
      have hm2 : m2 = m := by injection h2
      subst hm2
      refine ⟨?_, ?_, ?_⟩
      · rcases hsrc with hm | hm
        · rw [hm]; exact List.mem_cons_self s rest
        · exact List.mem_cons_of_mem s hm.1
      · rcases hsrc with hm | hm
        · rw [hm]; exact hb
        · exact hm.2
      · intro x hx hxv
        rcases List.mem_cons.mp hx with rfl | hx
        · exact hle
        · exact hmax x hx hxv
    · have h2 : latestFor v rest = some m := by
        simpa [latestFor, latestFrom, hb] using h
      obtain ⟨hm, hbv, hmax⟩ := ih m h2
      refine ⟨List.mem_cons_of_mem s hm, hbv, ?_⟩
      intro x hx hxv
      rcases List.mem_cons.mp hx with rfl | hx
      · exact absurd hxv hb
      · exact hmax x hx hxv

lemma recordTelemetry_samples (st : Store) (s : TelemetrySample) :
    (recordTelemetry st s).samples = st.samples ++ [s] := rfl

lemma foldl_record_samples :
    ∀ (ss : List TelemetrySample) (st : Store),
      (List.foldl recordTelemetry st ss).samples = st.samples ++ ss := by
  intro ss
  induction ss with
  | nil => intro st; simp
  | cons s rest ih =>
    intro st
    show (List.foldl recordTelemetry (recordTelemetry st s) rest).samples = _
    rw [ih, recordTelemetry_samples]
    simp

lemma recordTelemetry_vehicles_mem (st : Store) (s : TelemetrySample) (v : String) :
    v ∈ (recordTelemetry st s).vehicles ↔ v ∈ st.vehicles ∨ v = s.busId := by
  show v ∈ (if s.busId ∈ st.vehicles then st.vehicles
    else st.vehicles ++ [s.busId]) ↔ _
  by_cases hm : s.busId ∈ st.vehicles
  · rw [if_pos hm]
    constructor
    · exact Or.inl
    · rintro (h | h)
      · exact h
      · rw [h]; exact hm
  · rw [if_neg hm]
    simp [List.mem_append]

lemma foldl_record_vehicles_mem :
    ∀ (ss : List TelemetrySample) (st : Store) (v : String),
      v ∈ (List.foldl recordTelemetry st ss).vehicles ↔
        v ∈ st.vehicles ∨ ∃ s ∈ ss, s.busId = v := by
  intro ss
  induction ss with
  | nil => intro st v; simp
  | cons s rest ih =>
    intro st v
    show v ∈ (List.foldl recordTelemetry (recordTelemetry st s) rest).vehicles ↔ _
    rw [ih, recordTelemetry_vehicles_mem]
    simp only [List.mem_cons]
    constructor
    · rintro ((h | h) | ⟨x, hx, hxv⟩)
      · exact Or.inl h
      · exact Or.inr ⟨s, Or.inl rfl, h.symm⟩
      · exact Or.inr ⟨x, Or.inr hx, hxv⟩
    · rintro (h | ⟨x, hx | hx, hxv⟩)
      · exact Or.inl (Or.inl h)
      · exact Or.inl (Or.inr (by rw [hx] at hxv; exact hxv.symm))
      · exact Or.inr ⟨x, hx, hxv⟩

lemma recordTelemetry_vehicles_nodup (st : Store) (s : TelemetrySample)
    (h : st.vehicles.Nodup) : (recordTelemetry st s).vehicles.Nodup := by
  show (if s.busId ∈ st.vehicles then st.vehicles
    else st.vehicles ++ [s.busId]).Nodup
  by_cases hm : s.busId ∈ st.vehicles
  · rwa [if_pos hm]
  · rw [if_neg hm]
    rw [List.nodup_append]
    exact ⟨h, List.nodup_singleton _, by simpa [List.disjoint_left] using hm⟩

lemma foldl_record_vehicles_nodup :
    ∀ (ss : List TelemetrySample) (st : Store),
      st.vehicles.Nodup → (List.foldl recordTelemetry st ss).vehicles.Nodup := by
  intro ss
  induction ss with
  | nil => intro st h; exact h
  | cons s rest ih =>
    intro st h
    exact ih (recordTelemetry st s) (recordTelemetry_vehicles_nodup st s h)

lemma snapshot_map_fst :
    ∀ (vs : List String) (samples : List TelemetrySample),
      (∀ v ∈ vs, ∃ m, latestFor v samples = some m) →
      ((vs.filterMap fun v => (latestFor v samples).map fun m => (v, m)).map
        Prod.fst) = vs := by
  intro vs samples
  induction vs with
  | nil => intro _; rfl
  | cons v rest ih =>
    intro h
    obtain ⟨m, hm⟩ := h v (List.mem_cons_self v rest)
    have hrest := ih fun x hx => h x (List.mem_cons_of_mem v hx)
    simp [List.filterMap_cons, hm, hrest]

/-- Claim C3: after any sequence of recordTelemetry calls from the empty
store, every recorded sample is retained in arrival order, the registry has
no duplicate vehicles, latestSnapshot has exactly one row per known vehicle
(its keys are exactly the registry), and each row's sample belongs to that
vehicle, was recorded, and carries the maximum event timestamp among that
vehicle's recorded samples — so an out-of-order arrival never regresses the
snapshot. -/
theorem latest_snapshot_max_timestamp :
    ∀ ss : List TelemetrySample,
      (applyAll ss).samples = ss ∧
      (applyAll ss).vehicles.Nodup ∧
      (∀ v, v ∈ (applyAll ss).vehicles ↔ ∃ s ∈ ss, s.busId = v) ∧
      (latestSnapshot (applyAll ss)).map Prod.fst = (applyAll ss).vehicles ∧
      (∀ p ∈ latestSnapshot (applyAll ss),
        p.2.busId = p.1 ∧ p.2 ∈ ss ∧
          ∀ s ∈ ss, s.busId = p.1 → s.timestamp ≤ p.2.timestamp) := by
  intro ss
  have hsamples : (applyAll ss).samples = ss := by
    have := foldl_record_samples ss emptyStore
    simpa [applyAll, emptyStore] using this
  have hveh : ∀ v, v ∈ (applyAll ss).vehicles ↔ ∃ s ∈ ss, s.busId = v := by
    intro v
    have := foldl_record_vehicles_mem ss emptyStore v
    simpa [applyAll, emptyStore] using this
  have hnodup : (applyAll ss).vehicles.Nodup :=
    foldl_record_vehicles_nodup ss emptyStore (by simp [emptyStore])
  have htotal : ∀ v ∈ (applyAll ss).vehicles,
      ∃ m, latestFor v (applyAll ss).samples = some m := by
    intro v hv
    obtain ⟨s, hs, hsv⟩ := (hveh v).mp hv
    exact latestFor_some_of_mem v (applyAll ss).samples
      ⟨s, by rw [hsamples]; exact hs, hsv⟩
  refine ⟨hsamples, hnodup, hveh, ?_, ?_⟩
  · exact snapshot_map_fst (applyAll ss).vehicles (applyAll ss).samples htotal
  · intro p hp
    obtain ⟨v, hv, hmap⟩ := List.mem_filterMap.mp hp
    obtain ⟨m, hm, hvm⟩ := Option.map_eq_some'.mp hmap
    obtain ⟨hmem, hbv, hmax⟩ := latestFor_spec_some v (applyAll ss).samples m hm
    have hp1 : p.1 = v := by rw [← hvm]
    have hp2 : p.2 = m := by rw [← hvm]
    rw [hsamples] at hmem hmax
    refine ⟨by rw [hp1, hp2]; exact hbv, by rw [hp2]; exact hmem, ?_⟩
    intro s hs hsv
    rw [hp2]
    exact hmax s hs (by rw [← hp1]; exact hsv)

theorem latest_snapshot_max_timestamp_witness :
    (applyAll ssOutOfOrder).samples = ssOutOfOrder ∧
    ((mkSample bus1id 10 50 false).busId = bus1id ∧
      mkSample bus1id 10 50 false ∈ ssOutOfOrder ∧
      ∀ s ∈ ssOutOfOrder, s.busId = bus1id →
        s.timestamp ≤ (mkSample bus1id 10 50 false).timestamp) :=
  ⟨(latest_snapshot_max_timestamp ssOutOfOrder).1,
    (latest_snapshot_max_timestamp ssOutOfOrder).2.2.2.2
      (bus1id, mkSample bus1id 10 50 false) (by decide)⟩

/-- Claim C5: for a known vehicle and bounds t0 ≤ t1, history returns a
list sorted by non-decreasing timestamp that is a permutation of exactly
the stored samples of that vehicle with timestamp in [t0, t1] (so every
returned sample is the vehicle's and in range); history is a pure function
of the store, so repeated calls with no intervening writes agree; and an
unknown vehicle id yields NotFound. -/
theorem history_sorted_within_bounds :
    ∀ (st : Store) (v : String) (t0 t1 : Int), t0 ≤ t1 →
      (v ∈ st.vehicles →
        ∃ l, history st v t0 t1 = Except.ok l ∧
          List.Sorted tsLE l ∧
          l.Perm (st.samples.filter (inRange v t0 t1)) ∧
          ∀ s ∈ l, s.busId = v ∧ t0 ≤ s.timestamp ∧ s.timestamp ≤ t1) ∧
      (v ∉ st.vehicles → history st v t0 t1 = Except.error StoreError.notFound) := by
  intro st v t0 t1 _
  constructor
  · intro hv
    refine ⟨List.insertionSort tsLE (st.samples.filter (inRange v t0 t1)),
      by simp [history, hv], List.sorted_insertionSort tsLE _,
      List.perm_insertionSort tsLE _, ?_⟩
    intro s hs
    have hmem : s ∈ st.samples.filter (inRange v t0 t1) :=
      (List.perm_insertionSort tsLE _).mem_iff.mp hs
    have h2 := List.mem_filter.mp hmem
    have h3 : s.busId = v ∧ t0 ≤ s.timestamp ∧ s.timestamp ≤ t1 := by
      have := h2.2
      simp only [inRange, Bool.and_eq_true, decide_eq_true_eq] at this
      exact ⟨this.1.1, this.1.2, this.2⟩
    exact h3
  · intro hv
    simp [history, hv]

theorem history_sorted_within_bounds_witness :
    ∃ l, history (applyAll ssOutOfOrder) bus1id 0 20 = Except.ok l ∧
      List.Sorted tsLE l ∧
      l.Perm ((applyAll ssOutOfOrder).samples.filter (inRange bus1id 0 20)) ∧
      ∀ s ∈ l, s.busId = bus1id ∧ 0 ≤ s.timestamp ∧ s.timestamp ≤ 20 :=
  (history_sorted_within_bounds (applyAll ssOutOfOrder) bus1id 0 20
    (by decide)).1 (by decide)

/-- Claim C9: the Live Status page's polling interval in seconds is
max(poll_interval_seconds, 3) — 5000 ms when the configured value is absent
or zero, max(p, 3) * 1000 ms otherwise — and it is never below 3000 ms, so
the dashboard never polls the snapshot endpoint more often than once every
3 seconds. -/
theorem live_status_poll_interval :
    (liveStatusIntervalMs none = 5 * 1000) ∧
    (liveStatusIntervalMs (some 0) = 5 * 1000) ∧
    (∀ p : Int, p ≠ 0 → liveStatusIntervalMs (some p) = max p 3 * 1000) ∧
    (∀ q : Option Int, 3 * 1000 ≤ liveStatusIntervalMs q) := by
  refine ⟨by decide, by decide, ?_, ?_⟩
  · intro p hp
    simp [liveStatusIntervalMs, pollBaseSeconds, hp]
  · intro q
    have h3 : (3 : Int) ≤ max (pollBaseSeconds q) 3 := le_max_right _ _
    have := mul_le_mul_of_nonneg_right h3 (by norm_num : (0 : Int) ≤ 1000)
    simpa [liveStatusIntervalMs] using this

theorem live_status_poll_interval_witness :
    liveStatusIntervalMs (some 10) = max 10 3 * 1000 ∧
    3 * 1000 ≤ liveStatusIntervalMs (some 10) :=
  ⟨live_status_poll_interval.2.2.1 10 (by decide),
    live_status_poll_interval.2.2.2 (some 10)⟩

/-- Claim C10: every falsy argument among alert_id, custom_note, speed and
threshold is transmitted as null (a truthy one passes through unchanged);
in particular a numeric speed of 0 or threshold of 0 is transmitted as
null, not as 0. -/
theorem send_driver_message_falsy_to_null :
    (∀ b a t c sp th : JsValue, truthy a = false →
        (sendDriverMessage b a t c sp th).alert_id = JsValue.null) ∧
    (∀ b a t c sp th : JsValue, truthy c = false →
        (sendDriverMessage b a t c sp th).custom_note = JsValue.null) ∧
    (∀ b a t c sp th : JsValue, truthy sp = false →
        (sendDriverMessage b a t c sp th).speed = JsValue.null) ∧
    (∀ b a t c sp th : JsValue, truthy th = false →
        (sendDriverMessage b a t c sp th).threshold = JsValue.null) ∧
    (∀ b a t c sp th : JsValue, truthy sp = true →
        (sendDriverMessage b a t c sp th).speed = sp) ∧
    (∀ b a t c th : JsValue,
        (sendDriverMessage b a t c (JsValue.num 0) th).speed = JsValue.null) ∧
    (∀ b a t c sp : JsValue,
        (sendDriverMessage b a t c sp (JsValue.num 0)).threshold = JsValue.null) := by
  refine ⟨?_, ?_, ?_, ?_, ?_, ?_, ?_⟩
  · intro b a t c sp th h
    simp [sendDriverMessage, orNull, h]
  · intro b a t c sp th h
    simp [sendDriverMessage, orNull, h]
  · intro b a t c sp th h
    simp [sendDriverMessage, orNull, h]
  · intro b a t c sp th h
    simp [sendDriverMessage, orNull, h]
  · intro b a t c sp th h
    simp [sendDriverMessage, orNull, h]
  · intro b a t c th
    simp [sendDriverMessage, orNull, truthy]
  · intro b a t c sp
    simp [sendDriverMessage, orNull, truthy]

theorem send_driver_message_falsy_to_null_witness :
    (sendDriverMessage (JsValue.str bus1id) JsValue.null
        (JsValue.str bus1id) JsValue.undef (JsValue.num 0)
        (JsValue.num 0)).alert_id = JsValue.null ∧
    (sendDriverMessage (JsValue.str bus1id) JsValue.null
        (JsValue.str bus1id) JsValue.undef (JsValue.num 0)
        (JsValue.num 0)).speed = JsValue.null :=
  ⟨send_driver_message_falsy_to_null.1 (JsValue.str bus1id) JsValue.null
      (JsValue.str bus1id) JsValue.undef (JsValue.num 0) (JsValue.num 0)
      (by decide),
    send_driver_message_falsy_to_null.2.2.1 (JsValue.str bus1id) JsValue.null
      (JsValue.str bus1id) JsValue.undef (JsValue.num 0) (JsValue.num 0)
      (by decide)⟩
